import Mathlib

/-!
Shallow embedding of the lockit-mongodb-adapter (src/index.js, the canonical
variant) together with the external collaborators it calls, and proofs of
the specified properties of its four operations save, find, update, remove.

Modelling conventions:
  - MongoDB object ids are Nat, assigned by a counter in the store model.
  - Timestamps are Int milliseconds.  The source reads the clock twice in
    save (once for signupTimestamp, once inside the expression that builds
    signupTokenExpires), so the embedding of save takes the two successive
    clock samples t1 and t2 as explicit arguments.
  - uuid.v4 is an external random source: the token it returns for the
    current call is an explicit argument of save.
  - couch-pwd hash delivers its result through a node callback
    (err, salt, derivedKey); the outcome of that callback is an explicit
    argument of save, of type Except String (String × String).
-/

/-- A user document as composed by Adapter.prototype.save and stored in the
MongoDB collection; field names follow src/index.js.  The store-assigned
object id is absent (none) before the document is persisted. -/
structure UserRecord where
  _id : Option Nat
  name : String
  email : String
  signupToken : String
  signupTimestamp : Int
  signupTokenExpires : Int
  failedLoginAttempts : Int
  salt : String
  derived_key : String
  extra : Option String
deriving Repr, DecidableEq

/-- The configuration options of the adapter that its operations read:
config.uniqueName, config.useExtra and config.signup.tokenExpiration. -/
structure Config where
  uniqueName : Bool
  useExtra : Bool
  tokenExpiration : String
deriving Repr, DecidableEq

/-- Numeric value of a digit run, as the ms library parses its number part. -/
def digitsVal (l : List Char) : Nat :=
  l.foldl (fun a c => a * 10 + (c.toNat - 48)) 0

/-- Milliseconds per duration unit, from the constants of the ms library
(s = 1000, m = 60 s, h = 60 m, d = 24 h, w = 7 d); an empty unit means
milliseconds. -/
def msUnit (u : String) : Option Nat :=
  if u == "" || u == "ms" then some 1
  else if u == "s" then some 1000
  else if u == "m" then some 60000
  else if u == "h" then some 3600000
  else if u == "d" then some 86400000
  else if u == "w" then some 604800000
  else none

/-- The ms library on an integer duration string such as 24h: a digit run
followed by a unit suffix, none when the string does not parse.  Modelled
from the documented contract of the external ms package for the integer
short forms the adapter configuration uses. -/
def ms (s : String) : Option Nat :=
  let digits := s.toList.takeWhile Char.isDigit
  let unit := s.toList.dropWhile Char.isDigit
  if digits.isEmpty then none
  else match msUnit (String.mk unit) with
    | none => none
    | some k => some (digitsVal digits * k)

/-- One MongoDB collection of user documents, together with the counter from
which store-assigned object ids are drawn. -/
structure Store where
  nextId : Nat
  docs : List UserRecord
deriving Repr, DecidableEq

/-- A value a MongoDB filter can compare a document field against. -/
inductive MValue where
  | vStr (s : String)
  | vNat (n : Nat)
  | vInt (i : Int)
  | vUndefined
deriving Repr, DecidableEq

/-- JS property access on a stored user document by field-name string, as a
MongoDB filter evaluates it; none means the field is absent. -/
def getField (r : UserRecord) (f : String) : Option MValue :=
  if f == "_id" then r._id.map .vNat
  else if f == "name" then some (.vStr r.name)
  else if f == "email" then some (.vStr r.email)
  else if f == "signupToken" then some (.vStr r.signupToken)
  else if f == "signupTimestamp" then some (.vInt r.signupTimestamp)
  else if f == "signupTokenExpires" then some (.vInt r.signupTokenExpires)
  else if f == "failedLoginAttempts" then some (.vInt r.failedLoginAttempts)
  else if f == "salt" then some (.vStr r.salt)
  else if f == "derived_key" then some (.vStr r.derived_key)
  else if f == "extra" then r.extra.map .vStr
  else none

/-- Whether a document satisfies the single-field filter of the form
built by the adapter: qry[f] = v. -/
def matchesFilter (f : String) (v : MValue) (r : UserRecord) : Bool :=
  decide (getField r f = some v)

/-- collection.findOne on a single-field filter: the first stored document
satisfying it, in insertion order. -/
def findOne (st : Store) (f : String) (v : MValue) : Option UserRecord :=
  st.docs.find? (matchesFilter f v)

/-- A write rejected by the store. -/
inductive DbErr where
  | duplicateKey (field : String)
deriving Repr, DecidableEq

/-- The unique-index check MongoDB applies to a write: the email index always
exists; the name index exists only when config.uniqueName is set (the
constructor creates or drops it accordingly).  The candidate document is
checked against every document in docs; the violated field is returned. -/
def violatesIndex (cfg : Config) (docs : List UserRecord) (u : UserRecord) :
    Option String :=
  if docs.any (fun d => d.email == u.email) then some "email"
  else if cfg.uniqueName && docs.any (fun d => d.name == u.name) then some "name"
  else none

/-- collection.save of the MongoDB driver: a document without an _id is
inserted under a fresh store-assigned id; a document with an _id replaces
the stored document with that id, or is inserted with that id when none
exists (upsert).  Unique indexes are enforced against the other documents.
Returns the persisted document (result.ops[0] for an insert). -/
def collSave (cfg : Config) (st : Store) (u : UserRecord) :
    Except DbErr (Store × UserRecord) :=
  match u._id with
  | none =>
    match violatesIndex cfg st.docs u with
    | some f => .error (.duplicateKey f)
    | none =>
      let u2 : UserRecord := { u with _id := some st.nextId }
      .ok ({ nextId := st.nextId + 1, docs := st.docs ++ [u2] }, u2)
  | some i =>
    if st.docs.any (fun d => d._id == some i) then
      match violatesIndex cfg (st.docs.filter (fun d => !(d._id == some i))) u with
      | some f => .error (.duplicateKey f)
      | none =>
        .ok ({ st with
               docs := st.docs.map (fun d => if d._id == some i then u else d) }, u)
    else
      match violatesIndex cfg st.docs u with
      | some f => .error (.duplicateKey f)
      | none => .ok ({ st with docs := st.docs ++ [u] }, u)

/-- Decidable equality for outcomes delivered through Except, so that
concrete runs of the operations can be evaluated inside proofs. -/
instance exceptDecEq {ε α : Type} [DecidableEq ε] [DecidableEq α] :
    DecidableEq (Except ε α) := fun a b =>
  match a, b with
  | .ok x, .ok y =>
    if h : x = y then .isTrue (h ▸ rfl)
    else .isFalse (fun hc => h (Except.ok.inj hc))
  | .error x, .error y =>
    if h : x = y then .isTrue (h ▸ rfl)
    else .isFalse (fun hc => h (Except.error.inj hc))
  | .ok _, .error _ => .isFalse (fun hc => Except.noConfusion hc)
  | .error _, .ok _ => .isFalse (fun hc => Except.noConfusion hc)

/-- Errors the adapter hands to its callbacks. -/
inductive AdapterErr where
  | hashFailure (msg : String)
  | db (e : DbErr)
  | cannotFindUser (nm : String)
deriving Repr, DecidableEq

/-- The message string of an adapter error, as built in src/index.js. -/
def errMessage : AdapterErr → String
  | .hashFailure m => m
  | .db (.duplicateKey f) => "E11000 duplicate key error: " ++ f
  | .cannotFindUser nm => "lockit - Cannot find user \"" ++ nm ++ "\""

/-- How a call to Adapter.prototype.save ends: the callback receives an
error, or the callback receives the persisted document, or the unguarded
expression result.ops[0] throws a TypeError because the driver passed a
null result alongside saveErr, so the callback is never invoked. -/
inductive SaveOutcome where
  | err (e : AdapterErr)
  | ok (u : UserRecord)
  | crash
deriving Repr, DecidableEq

/-- The candidate user document Adapter.prototype.save composes before
persisting: t1 is the moment() sample stored in signupTimestamp, t2 the
moment() sample inside the expression building signupTokenExpires; token is
the uuid.v4 value; salt and hsh the couch-pwd outputs.  extra is attached
only when config.useExtra is set. -/
def composeUser (cfg : Config) (nm em extraVal : String) (t1 t2 : Int)
    (token salt hsh : String) : UserRecord :=
  { _id := none
    name := nm
    email := em
    signupToken := token
    signupTimestamp := t1
    signupTokenExpires := t2 + ((ms cfg.tokenExpiration).getD 0 : Nat)
    failedLoginAttempts := 0
    salt := salt
    derived_key := hsh
    extra := if cfg.useExtra then some extraVal else none }

/-- Adapter.prototype.save: build the candidate record, hash the password,
and persist.  On a hashing error the callback gets that error and the store
is untouched.  On a store error the code evaluates result.ops[0] with a
null result before calling done, so the call crashes with a TypeError and
the callback never sees the duplicate-key error.  On success the callback
gets the persisted document result.ops[0]. -/
def adapterSave (cfg : Config) (st : Store) (nm em pw extraVal : String)
    (t1 t2 : Int) (token : String) (hres : Except String (String × String)) :
    Store × SaveOutcome :=
  match hres with
  | .error e => (st, .err (.hashFailure e))
  | .ok (salt, hsh) =>
    match collSave cfg st (composeUser cfg nm em extraVal t1 t2 token salt hsh) with
    | .error _ => (st, .crash)
    | .ok (st2, u2) => (st2, .ok u2)

/-- Adapter.prototype.find: findOne on the filter qry with qry[matchField]
set to the query value; the callback receives the document or null. -/
def adapterFind (st : Store) (matchField : String) (query : MValue) :
    Option UserRecord :=
  findOne st matchField query

/-- The value the filter built by Adapter.prototype.update compares _id
against: the id of the given record, or undefined when it has none. -/
def idValue (u : UserRecord) : MValue :=
  match u._id with
  | some i => .vNat i
  | none => .vUndefined

/-- Adapter.prototype.update: collection.save of the full given record
(an upsert by _id), then a fresh findOne on its _id, whose result — not the
write acknowledgement — is handed to the callback. -/
def adapterUpdate (cfg : Config) (st : Store) (u : UserRecord) :
    Store × Except DbErr (Option UserRecord) :=
  match collSave cfg st u with
  | .error e => (st, .error e)
  | .ok (st2, _) => (st2, .ok (findOne st2 "_id" (idValue u)))

/-- Adapter.prototype.remove: collection.remove on the filter by name
deletes every matching document; when the count of removed documents is
zero the callback gets the cannot-find-user error, otherwise it gets
true. -/
def adapterRemove (st : Store) (nm : String) : Store × Except AdapterErr Bool :=
  let n := (st.docs.filter (fun d => d.name == nm)).length
  let st2 : Store := { st with docs := st.docs.filter (fun d => !(d.name == nm)) }
  if n == 0 then (st2, .error (.cannotFindUser nm)) else (st2, .ok true)

/-- Modelled from the spec: the Credential Hasher (the external couch-pwd
package, absent from src/) derives a salted value from the plaintext,
deterministic given the salt; the concrete derivation here stands in for
pbkdf2 and realises the §4.1 contract shape (fresh salt in, salt and
derived key out); irreversibility is outside the model. -/
def pwdDerive (salt pw : String) : String :=
  "$pbkdf2$" ++ salt ++ "$" ++ pw

/-- Modelled from the spec: pwd.hash with the fresh random salt the entropy
source produced for this call; returns the salt and the derived key. -/
def pwdHash (entropySalt pw : String) : String × String :=
  (entropySalt, pwdDerive entropySalt pw)

/-- Modelled from the spec: verification recomputes the derivation with the
stored salt and compares it with the stored derived key. -/
def pwdVerify (pw salt derivedKey : String) : Bool :=
  pwdDerive salt pw == derivedKey

/-- A sample stored document used in concrete evaluations. -/
def johnDoc : UserRecord :=
  { _id := some 0
    name := "john"
    email := "john@email.com"
    signupToken := "tok0"
    signupTimestamp := 0
    signupTokenExpires := 3600000
    failedLoginAttempts := 0
    salt := "s0"
    derived_key := "k0"
    extra := none }

/-- A caller-supplied record violating both data-model invariants: its
signupTokenExpires is not after its signupTimestamp and its
failedLoginAttempts is negative. -/
def badDoc : UserRecord :=
  { _id := some 1
    name := "mallory"
    email := "m@x.com"
    signupToken := "tk"
    signupTimestamp := 5
    signupTokenExpires := 0
    failedLoginAttempts := -1
    salt := "s"
    derived_key := "k"
    extra := none }

theorem getField_name (d : UserRecord) : getField d "name" = some (.vStr d.name) := rfl

theorem getField_id (d : UserRecord) : getField d "_id" = d._id.map .vNat := rfl

theorem matchesFilter_name (d : UserRecord) (s : String) :
    matchesFilter "name" (.vStr s) d = decide (d.name = s) := by
  rw [matchesFilter, getField_name]
  simp

theorem matchesFilter_id (d : UserRecord) (i : Nat) :
    matchesFilter "_id" (.vNat i) d = decide (d._id = some i) := by
  rw [matchesFilter, getField_id]
  cases d._id <;> simp

theorem violatesIndex_none (cfg : Config) (docs : List UserRecord) (u : UserRecord)
    (he : ∀ d ∈ docs, d.email ≠ u.email)
    (hn : cfg.uniqueName = true → ∀ d ∈ docs, d.name ≠ u.name) :
    violatesIndex cfg docs u = none := by
  have h1 : docs.any (fun d => d.email == u.email) = false := by
    simp only [List.any_eq_false, beq_iff_eq]
    exact he
  have h2 : (cfg.uniqueName && docs.any (fun d => d.name == u.name)) = false := by
    cases hu : cfg.uniqueName with
    | false => simp
    | true =>
      have h3 := hn hu
      simp only [Bool.true_and, List.any_eq_false, beq_iff_eq]
      exact h3
  simp [violatesIndex, h1, h2]

theorem adapterSave_ok (cfg : Config) (st : Store) (nm em pw extraVal : String)
    (t1 t2 : Int) (token salt hsh : String)
    (he : ∀ d ∈ st.docs, d.email ≠ em)
    (hn : cfg.uniqueName = true → ∀ d ∈ st.docs, d.name ≠ nm) :
    adapterSave cfg st nm em pw extraVal t1 t2 token (.ok (salt, hsh)) =
      ({ nextId := st.nextId + 1,
         docs := st.docs ++
           [{ composeUser cfg nm em extraVal t1 t2 token salt hsh with
              _id := some st.nextId }] },
       .ok { composeUser cfg nm em extraVal t1 t2 token salt hsh with
             _id := some st.nextId }) := by
  have hv : violatesIndex cfg st.docs
      (composeUser cfg nm em extraVal t1 t2 token salt hsh) = none :=
    violatesIndex_none _ _ _ he hn
  simp only [adapterSave, collSave, composeUser] at hv ⊢
  rw [hv]

theorem find?_of_filter_singleton {α : Type} (p : α → Bool) :
    ∀ (l : List α) (r : α), l.filter p = [r] → l.find? p = some r := by
  intro l
  induction l with
  | nil =>
    intro r h
    simp at h
  | cons a l ih =>
    intro r h
    by_cases hp : p a
    · rw [List.filter_cons_of_pos hp] at h
      rw [List.cons.injEq] at h
      rw [List.find?_cons_of_pos _ hp, h.1]
    · rw [List.filter_cons_of_neg hp] at h
      rw [List.find?_cons_of_neg _ hp]
      exact ih r h

/-- C4: every successful create returns the persisted document: its
failedLoginAttempts is 0, its signupToken is the token the issuer produced
for this call, its signupTimestamp is the creation-time clock sample, its
extra field is present exactly when config.useExtra is set, its id is the
store-assigned one, and the returned record is exactly the document
appended to the store. -/
theorem C4_create_returns_persisted (cfg : Config) (st : Store)
    (nm em pw extraVal : String) (t1 t2 : Int) (token salt hsh : String)
    (he : ∀ d ∈ st.docs, d.email ≠ em)
    (hn : cfg.uniqueName = true → ∀ d ∈ st.docs, d.name ≠ nm) :
    ∃ st2 u,
      adapterSave cfg st nm em pw extraVal t1 t2 token (.ok (salt, hsh)) = (st2, .ok u)
      ∧ u.failedLoginAttempts = 0
      ∧ u.signupToken = token
      ∧ u.signupTimestamp = t1
      ∧ u.extra = (if cfg.useExtra then some extraVal else none)
      ∧ u._id = some st.nextId
      ∧ st2.docs = st.docs ++ [u] := by
  refine ⟨_, _, adapterSave_ok cfg st nm em pw extraVal t1 t2 token salt hsh he hn,
    rfl, rfl, rfl, rfl, rfl, rfl⟩

/-- C4 witness: create on an empty store with useExtra enabled. -/
theorem C4_witness :
    ∃ st2 u,
      adapterSave ⟨true, true, "24h"⟩ ⟨0, []⟩ "alice" "alice@x.com" "s3cret" "xt"
        100 100 "tok" (.ok ("s1", "k1")) = (st2, .ok u)
      ∧ u.failedLoginAttempts = 0
      ∧ u.signupToken = "tok"
      ∧ u.signupTimestamp = 100
      ∧ u.extra = (if (true : Bool) then some "xt" else none)
      ∧ u._id = some 0
      ∧ st2.docs = [] ++ [u] :=
  C4_create_returns_persisted ⟨true, true, "24h"⟩ ⟨0, []⟩ "alice" "alice@x.com"
    "s3cret" "xt" 100 100 "tok" "s1" "k1" (by simp) (by simp)

/-- C5: when the hashing step fails, create hands that error to the caller
and the store is exactly what it was before the call. -/
theorem C5_hash_failure_no_write (cfg : Config) (st : Store)
    (nm em pw extraVal : String) (t1 t2 : Int) (token msg : String) :
    adapterSave cfg st nm em pw extraVal t1 t2 token (.error msg) =
      (st, .err (.hashFailure msg)) := rfl

/-- C7: remove deletes the stored documents matching the given name and
returns true when at least one matched; when zero documents were deleted it
returns the UserNotFound error carrying the given name (its message quotes
the name) and the store is unchanged. -/
theorem C7_remove (st : Store) (nm : String) :
    ((∃ d ∈ st.docs, d.name = nm) →
        adapterRemove st nm =
          ({ st with docs := st.docs.filter (fun d => !(d.name == nm)) }, .ok true))
    ∧ ((∀ d ∈ st.docs, d.name ≠ nm) →
        adapterRemove st nm = (st, .error (.cannotFindUser nm))
        ∧ errMessage (.cannotFindUser nm) =
            "lockit - Cannot find user \"" ++ nm ++ "\"") := by
  constructor
  · rintro ⟨d, hd, hdn⟩
    have hmem : d ∈ st.docs.filter (fun x => x.name == nm) := by
      simp [List.mem_filter, hd, hdn]
    have hne : (st.docs.filter (fun x => x.name == nm)).length ≠ 0 := by
      intro h0
      rw [List.length_eq_zero] at h0
      rw [h0] at hmem
      simp at hmem
    simp [adapterRemove, hne]
  · intro h
    have h0 : st.docs.filter (fun x => x.name == nm) = [] := by
      rw [List.filter_eq_nil_iff]
      intro a ha
      simp [h a ha]
    have hself : st.docs.filter (fun x => !(x.name == nm)) = st.docs := by
      rw [List.filter_eq_self]
      intro a ha
      simp [h a ha]
    refine ⟨?_, rfl⟩
    simp [adapterRemove, h0, hself]

/-- C7 witness: removing john succeeds on a store holding him; removing
ghost-user from an empty store yields the error referencing ghost-user. -/
theorem C7_witness :
    adapterRemove ⟨1, [johnDoc]⟩ "john" =
      ({ nextId := 1, docs := [johnDoc].filter (fun d => !(d.name == "john")) }, .ok true)
    ∧ (adapterRemove ⟨0, []⟩ "ghost-user" = (⟨0, []⟩, .error (.cannotFindUser "ghost-user"))
        ∧ errMessage (.cannotFindUser "ghost-user") =
            "lockit - Cannot find user \"" ++ "ghost-user" ++ "\"") :=
  ⟨(C7_remove ⟨1, [johnDoc]⟩ "john").1 ⟨johnDoc, by simp, by decide⟩,
   (C7_remove ⟨0, []⟩ "ghost-user").2 (by simp)⟩

/-- C8: for matchField among name, email and signupToken, find returns the
single matching record when exactly one matches, and null — the NotFound
signal, not an error — when no stored document matches. -/
theorem C8_find (st : Store) (f : String) (v : MValue)
    (hf : f = "name" ∨ f = "email" ∨ f = "signupToken") :
    (∀ r, st.docs.filter (matchesFilter f v) = [r] → adapterFind st f v = some r)
    ∧ ((∀ d ∈ st.docs, matchesFilter f v d = false) → adapterFind st f v = none) := by
  constructor
  · intro r h
    exact find?_of_filter_singleton _ _ _ h
  · intro h
    rw [adapterFind, findOne, List.find?_eq_none]
    intro x hx
    simp [h x hx]

/-- C8 witness: looking up john by email finds him; looking up an absent
name yields null. -/
theorem C8_witness :
    adapterFind ⟨1, [johnDoc]⟩ "email" (.vStr "john@email.com") = some johnDoc
    ∧ adapterFind ⟨1, [johnDoc]⟩ "name" (.vStr "ghost") = none :=
  ⟨(C8_find ⟨1, [johnDoc]⟩ "email" (.vStr "john@email.com")
      (Or.inr (Or.inl rfl))).1 johnDoc (by decide),
   (C8_find ⟨1, [johnDoc]⟩ "name" (.vStr "ghost")
      (Or.inl rfl)).2 (by decide)⟩

/-- C10: find places its matchField argument into the store filter verbatim,
with no restriction to name, email and signupToken: for every field-name
string — including salt, derived_key and _id — find performs the lookup on
that field and returns the single record matching it. -/
theorem C10_find_unrestricted (st : Store) (f : String) (v : MValue)
    (r : UserRecord) (h : st.docs.filter (matchesFilter f v) = [r]) :
    adapterFind st f v = some r :=
  find?_of_filter_singleton _ _ _ h

/-- C10 witness: lookups on the internal fields salt, derived_key and _id
all find the matching document. -/
theorem C10_witness :
    adapterFind ⟨1, [johnDoc]⟩ "salt" (.vStr "s0") = some johnDoc
    ∧ adapterFind ⟨1, [johnDoc]⟩ "derived_key" (.vStr "k0") = some johnDoc
    ∧ adapterFind ⟨1, [johnDoc]⟩ "_id" (.vNat 0) = some johnDoc :=
  ⟨C10_find_unrestricted ⟨1, [johnDoc]⟩ "salt" (.vStr "s0") johnDoc (by decide),
   C10_find_unrestricted ⟨1, [johnDoc]⟩ "derived_key" (.vStr "k0") johnDoc (by decide),
   C10_find_unrestricted ⟨1, [johnDoc]⟩ "_id" (.vNat 0) johnDoc (by decide)⟩

/-- C2 evaluated at its failing input: with john already stored, a second
create reusing his email is rejected by the unique email index, and the
call ends in the TypeError crash on result.ops[0] — the callback never
receives the DuplicateUser error.  The store is returned unchanged: the
first record is unaffected and no partial record exists. -/
theorem C2_duplicate_email_crashes :
    adapterSave ⟨false, false, "1h"⟩ ⟨1, [johnDoc]⟩ "jack" "john@email.com" "pw2" ""
      5 5 "t1" (.ok ("s1", "k1")) = (⟨1, [johnDoc]⟩, .crash) := by decide

/-- C3 is false as stated: with TTL 1h and the second clock sample taken one
millisecond after the first, the created record has signupTokenExpires minus
signupTimestamp equal to 3600001 while the parsed TTL is 3600000. -/
theorem C3_counterexample :
    (adapterSave ⟨false, false, "1h"⟩ ⟨0, []⟩ "a" "a@x.com" "pw" "" 0 1 "t"
        (.ok ("s", "k"))).2 =
      .ok { _id := some 0, name := "a", email := "a@x.com", signupToken := "t",
            signupTimestamp := 0, signupTokenExpires := 3600001,
            failedLoginAttempts := 0, salt := "s", derived_key := "k",
            extra := none }
    ∧ ms "1h" = some 3600000
    ∧ ((3600001 : Int) - (0 : Int) ≠ (3600000 : Int)) := by decide

/-- C3 amended: for every record produced by create, signupTokenExpires
minus signupTimestamp equals the parsed TTL plus the time elapsed between
the two clock samples save takes; when the two samples coincide it equals
the parsed TTL exactly, whose values for 1h, 24h and 7d are 3600000,
86400000 and 604800000 ms. -/
theorem C3_ttl_plus_drift (cfg : Config) (st : Store)
    (nm em pw extraVal : String) (t1 t2 : Int) (token salt hsh : String)
    (he : ∀ d ∈ st.docs, d.email ≠ em)
    (hn : cfg.uniqueName = true → ∀ d ∈ st.docs, d.name ≠ nm) :
    ∃ st2 u,
      adapterSave cfg st nm em pw extraVal t1 t2 token (.ok (salt, hsh)) = (st2, .ok u)
      ∧ u.signupTokenExpires - u.signupTimestamp =
          (((ms cfg.tokenExpiration).getD 0 : Nat) : Int) + (t2 - t1)
      ∧ ms "1h" = some 3600000 ∧ ms "24h" = some 86400000
      ∧ ms "7d" = some 604800000 := by
  refine ⟨_, _, adapterSave_ok cfg st nm em pw extraVal t1 t2 token salt hsh he hn,
    ?_, by decide, by decide, by decide⟩
  show t2 + (((ms cfg.tokenExpiration).getD 0 : Nat) : Int) - t1 = _
  omega

/-- C3 witness: on an empty store with TTL 1h and coinciding clock samples
the difference is the parsed TTL plus zero drift. -/
theorem C3_witness :
    ∃ st2 u,
      adapterSave ⟨false, false, "1h"⟩ ⟨0, []⟩ "a" "a@x.com" "pw" "" 50 50 "t"
        (.ok ("s", "k")) = (st2, .ok u)
      ∧ u.signupTokenExpires - u.signupTimestamp =
          (((ms "1h").getD 0 : Nat) : Int) + (50 - 50)
      ∧ ms "1h" = some 3600000 ∧ ms "24h" = some 86400000
      ∧ ms "7d" = some 604800000 :=
  C3_ttl_plus_drift ⟨false, false, "1h"⟩ ⟨0, []⟩ "a" "a@x.com" "pw" "" 50 50 "t"
    "s" "k" (by simp) (by simp)

/-- C9 is false as stated: the invariants do not hold for every record
reachable through the adapter, because update persists any caller-supplied
record unvalidated.  From the empty store, one update call stores a record
whose signupTokenExpires is not after its signupTimestamp and whose
failedLoginAttempts is negative, and returns it. -/
theorem C9_counterexample :
    adapterUpdate ⟨false, false, "1h"⟩ ⟨0, []⟩ badDoc =
      (⟨0, [badDoc]⟩, .ok (some badDoc))
    ∧ ¬(badDoc.signupTokenExpires > badDoc.signupTimestamp)
    ∧ badDoc.failedLoginAttempts < 0 := by decide

/-- C9 amended: every record produced by create satisfies the invariants —
given that the configured TTL parses to a positive duration and the two
clock samples are in order, signupTokenExpires is strictly after
signupTimestamp, and failedLoginAttempts is 0, hence nonnegative.  The
invariants are not maintained by update, which persists caller-supplied
records unvalidated. -/
theorem C9_create_invariants (cfg : Config) (st : Store)
    (nm em pw extraVal : String) (t1 t2 : Int) (token salt hsh : String)
    (he : ∀ d ∈ st.docs, d.email ≠ em)
    (hn : cfg.uniqueName = true → ∀ d ∈ st.docs, d.name ≠ nm)
    (httl : 0 < (ms cfg.tokenExpiration).getD 0) (hmono : t1 ≤ t2) :
    ∃ st2 u,
      adapterSave cfg st nm em pw extraVal t1 t2 token (.ok (salt, hsh)) = (st2, .ok u)
      ∧ u.signupTimestamp < u.signupTokenExpires
      ∧ u.failedLoginAttempts = 0
      ∧ 0 ≤ u.failedLoginAttempts := by
  refine ⟨_, _, adapterSave_ok cfg st nm em pw extraVal t1 t2 token salt hsh he hn,
    ?_, rfl, ?_⟩
  · show t1 < t2 + (((ms cfg.tokenExpiration).getD 0 : Nat) : Int)
    omega
  · show (0 : Int) ≤ 0
    omega

/-- C9 witness: a create on the empty store with TTL 1h. -/
theorem C9_witness :
    ∃ st2 u,
      adapterSave ⟨false, false, "1h"⟩ ⟨0, []⟩ "a" "a@x.com" "pw" "" 7 7 "t"
        (.ok ("s", "k")) = (st2, .ok u)
      ∧ u.signupTimestamp < u.signupTokenExpires
      ∧ u.failedLoginAttempts = 0
      ∧ 0 ≤ u.failedLoginAttempts :=
  C9_create_invariants ⟨false, false, "1h"⟩ ⟨0, []⟩ "a" "a@x.com" "pw" "" 7 7 "t"
    "s" "k" (by simp) (by simp) (by decide) (by omega)

/-- C6: with no prior record under the given name or email, create followed
by find on the name returns a record whose stored derived key differs from
the plaintext secret, and verifying the secret against the stored salt and
derived key succeeds. -/
theorem C6_hash_verify_roundtrip (cfg : Config) (st : Store)
    (nm em pw extraVal : String) (t1 t2 : Int) (token entropySalt : String)
    (he : ∀ d ∈ st.docs, d.email ≠ em)
    (hname : ∀ d ∈ st.docs, d.name ≠ nm) :
    ∃ st2 u,
      adapterSave cfg st nm em pw extraVal t1 t2 token
          (.ok (pwdHash entropySalt pw)) = (st2, .ok u)
      ∧ adapterFind st2 "name" (.vStr nm) = some u
      ∧ u.derived_key ≠ pw
      ∧ pwdVerify pw u.salt u.derived_key = true := by
  simp only [pwdHash]
  refine ⟨_, _,
    adapterSave_ok cfg st nm em pw extraVal t1 t2 token entropySalt
      (pwdDerive entropySalt pw) he (fun _ => hname), ?_, ?_, ?_⟩
  · show (st.docs ++
        [{ composeUser cfg nm em extraVal t1 t2 token entropySalt
             (pwdDerive entropySalt pw) with
           _id := some st.nextId }]).find? (matchesFilter "name" (.vStr nm)) = _
    rw [List.find?_append]
    have h1 : st.docs.find? (matchesFilter "name" (.vStr nm)) = none := by
      rw [List.find?_eq_none]
      intro x hx
      rw [matchesFilter_name]
      simp [hname x hx]
    rw [h1]
    have hpu : matchesFilter "name" (.vStr nm)
        { composeUser cfg nm em extraVal t1 t2 token entropySalt
            (pwdDerive entropySalt pw) with
          _id := some st.nextId } = true := by
      rw [matchesFilter_name]
      simp [composeUser]
    rw [List.find?_cons_of_pos _ hpu]
    rfl
  · show pwdDerive entropySalt pw ≠ pw
    intro heq
    have hlen := congrArg String.length heq
    rw [pwdDerive] at hlen
    have h8 : ("$pbkdf2$" : String).length = 8 := rfl
    have hd1 : ("$" : String).length = 1 := rfl
    simp only [String.length_append, h8, hd1] at hlen
    omega
  · show pwdVerify pw entropySalt (pwdDerive entropySalt pw) = true
    simp [pwdVerify]

/-- C6 witness: a concrete create on the empty store followed by the lookup
under the name. -/
theorem C6_witness :
    ∃ st2 u,
      adapterSave ⟨false, false, "1h"⟩ ⟨0, []⟩ "alice" "alice@x.com" "s3cret" ""
        3 3 "tok" (.ok (pwdHash "pepper" "s3cret")) = (st2, .ok u)
      ∧ adapterFind st2 "name" (.vStr "alice") = some u
      ∧ u.derived_key ≠ "s3cret"
      ∧ pwdVerify "s3cret" u.salt u.derived_key = true :=
  C6_hash_verify_roundtrip ⟨false, false, "1h"⟩ ⟨0, []⟩ "alice" "alice@x.com"
    "s3cret" "" 3 3 "tok" "pepper" (by simp) (by simp)

theorem find?_id_map_replace (i : Nat) (u : UserRecord) (hu : u._id = some i) :
    ∀ l : List UserRecord, l.any (fun d => d._id == some i) = true →
      (l.map (fun d => if d._id == some i then u else d)).find?
        (matchesFilter "_id" (.vNat i)) = some u := by
  intro l
  induction l with
  | nil =>
    intro h
    simp at h
  | cons a l ih =>
    intro h
    rw [List.map_cons]
    by_cases ha : a._id = some i
    · have h1 : (if a._id == some i then u else a) = u := by simp [ha]
      rw [h1]
      apply List.find?_cons_of_pos
      rw [matchesFilter_id]
      simp [hu]
    · have h1 : (if a._id == some i then u else a) = a := by simp [ha]
      rw [h1]
      have hpa : ¬ (matchesFilter "_id" (.vNat i) a = true) := by
        rw [matchesFilter_id]
        simp [ha]
      rw [List.find?_cons_of_neg _ hpa]
      apply ih
      simp only [List.any_cons, Bool.or_eq_true] at h
      rcases h with h | h
      · exact absurd (by simpa using h) ha
      · exact h

/-- C1 is false as stated: updating a record whose identifier matches no
stored record does not fail with NotFound — the driver save is an upsert,
so the record is inserted and update returns it after re-reading. -/
theorem C1_counterexample :
    adapterUpdate ⟨false, false, "1h"⟩ ⟨0, []⟩ johnDoc =
      (⟨0, [johnDoc]⟩, .ok (some johnDoc)) := by decide

/-- C1 amended: update persists the full given record under its identifier —
replacing the stored document when the identifier matches one, inserting the
record when it matches none (an upsert, not a NotFound failure) — and
returns the record obtained by re-reading the store by that identifier, not
the write acknowledgement. -/
theorem C1_update_upserts (cfg : Config) (st : Store) (u : UserRecord) (i : Nat)
    (hid : u._id = some i)
    (he : ∀ d ∈ st.docs, d._id ≠ some i → d.email ≠ u.email)
    (hn : cfg.uniqueName = true → ∀ d ∈ st.docs, d._id ≠ some i → d.name ≠ u.name) :
    ∃ st2,
      adapterUpdate cfg st u = (st2, .ok (findOne st2 "_id" (.vNat i)))
      ∧ u ∈ st2.docs
      ∧ findOne st2 "_id" (.vNat i) = some u := by
  simp only [adapterUpdate, collSave, idValue, hid]
  by_cases hmem : st.docs.any (fun d => d._id == some i) = true
  · have hv : violatesIndex cfg
        (st.docs.filter (fun d => !(d._id == some i))) u = none := by
      apply violatesIndex_none
      · intro d hd
        rw [List.mem_filter] at hd
        exact he d hd.1 (by simpa using hd.2)
      · intro hc d hd
        rw [List.mem_filter] at hd
        exact hn hc d hd.1 (by simpa using hd.2)
    rw [if_pos hmem, hv]
    refine ⟨_, rfl, ?_, ?_⟩
    · rcases List.any_eq_true.mp hmem with ⟨d, hd, hdi⟩
      exact List.mem_map.mpr ⟨d, hd, by simp [hdi]⟩
    · show (st.docs.map _).find? (matchesFilter "_id" (.vNat i)) = some u
      exact find?_id_map_replace i u hid st.docs hmem
  · have hnone : ∀ d ∈ st.docs, d._id ≠ some i := by
      have h0 : st.docs.any (fun d => d._id == some i) = false :=
        Bool.eq_false_iff.mpr hmem
      intro d hd
      have := List.any_eq_false.mp h0 d hd
      simpa using this
    have hv : violatesIndex cfg st.docs u = none :=
      violatesIndex_none cfg st.docs u
        (fun d hd => he d hd (hnone d hd))
        (fun hc d hd => hn hc d hd (hnone d hd))
    rw [if_neg hmem, hv]
    refine ⟨_, rfl, ?_, ?_⟩
    · exact List.mem_append_right _ (by simp)
    · show (st.docs ++ [u]).find? (matchesFilter "_id" (.vNat i)) = some u
      rw [List.find?_append]
      have h1 : st.docs.find? (matchesFilter "_id" (.vNat i)) = none := by
        rw [List.find?_eq_none]
        intro x hx
        rw [matchesFilter_id]
        simp [hnone x hx]
      have hpu : matchesFilter "_id" (.vNat i) u = true := by
        rw [matchesFilter_id]
        simp [hid]
      rw [h1, List.find?_cons_of_pos _ hpu]
      rfl

/-- C1 witness: updating the stored john record with a changed email
replaces it and returns the re-read stored value. -/
theorem C1_witness :
    ∃ st2,
      adapterUpdate ⟨false, false, "1h"⟩ ⟨1, [johnDoc]⟩
        { johnDoc with email := "new@email.com" } =
        (st2, .ok (findOne st2 "_id" (.vNat 0)))
      ∧ { johnDoc with email := "new@email.com" } ∈ st2.docs
      ∧ findOne st2 "_id" (.vNat 0) =
          some { johnDoc with email := "new@email.com" } :=
  C1_update_upserts ⟨false, false, "1h"⟩ ⟨1, [johnDoc]⟩
    { johnDoc with email := "new@email.com" } 0 (by decide) (by decide) (by decide)
